import Mathlib

/-!
Verification of the dl-myo device protocol layer.

The definitions below are a shallow embedding of the Python sources:
`myo/commands.py` (command codec), `myo/command.py` (legacy command codec),
`myo/types.py` (notification decoders), `myo/handle.py` (handle registry,
matching the registry used via `myo/profile.py`), and `myo/core.py`
(client: event dispatch, aggregation, setup and start/stop subscription).

Bytes are `Nat` values; Python `bytearray(...)` construction, which raises
`ValueError` for an integer outside `0..255`, is modelled by `toBytes`.
Python exceptions are modelled with `Except PyErr`.
-/

namespace Myo

/-- Python exception kinds raised by the modelled code: `ValueError` (also
covering enum-lookup failures of `aenum`), `struct.error`, and
`AssertionError`. -/
inductive PyErr where
  | valueError
  | structError
  | assertError
  deriving DecidableEq

/-- Classifier modes from `myo/types.py` (`ClassifierMode`). -/
inductive ClassifierMode where
  | DISABLED
  | ENABLED
  deriving DecidableEq

/-- Numeric values of `ClassifierMode`. -/
def ClassifierMode.val : ClassifierMode → Nat
  | .DISABLED => 0x00
  | .ENABLED => 0x01

/-- EMG modes from `myo/types.py` (`EMGMode`). -/
inductive EMGMode where
  | NONE
  | SEND_FILT
  | SEND_EMG
  | SEND_RAW
  deriving DecidableEq

/-- Numeric values of `EMGMode`. -/
def EMGMode.val : EMGMode → Nat
  | .NONE => 0x00
  | .SEND_FILT => 0x01
  | .SEND_EMG => 0x02
  | .SEND_RAW => 0x03

/-- IMU modes from `myo/types.py` (`IMUMode`). -/
inductive IMUMode where
  | NONE
  | SEND_DATA
  | SEND_EVENTS
  | SEND_ALL
  | SEND_RAW
  deriving DecidableEq

/-- Numeric values of `IMUMode`. -/
def IMUMode.val : IMUMode → Nat
  | .NONE => 0x00
  | .SEND_DATA => 0x01
  | .SEND_EVENTS => 0x02
  | .SEND_ALL => 0x03
  | .SEND_RAW => 0x04

/-- Sleep modes from `myo/types.py` (`SleepMode`). -/
inductive SleepMode where
  | NORMAL
  | NEVER_SLEEP
  deriving DecidableEq

/-- Numeric values of `SleepMode`. -/
def SleepMode.val : SleepMode → Nat
  | .NORMAL => 0
  | .NEVER_SLEEP => 1

/-- Unlock types from `myo/types.py` (`UnlockType`). -/
inductive UnlockType where
  | LOCK
  | TIMED
  | HOLD
  deriving DecidableEq

/-- Numeric values of `UnlockType`. -/
def UnlockType.val : UnlockType → Nat
  | .LOCK => 0x00
  | .TIMED => 0x01
  | .HOLD => 0x02

/-- User action types from `myo/types.py` (`UserActionType`). -/
inductive UserActionType where
  | SINGLE
  deriving DecidableEq

/-- Numeric values of `UserActionType`. -/
def UserActionType.val : UserActionType → Nat
  | .SINGLE => 0

/-- Vibration types from `myo/types.py` (`VibrationType`). -/
inductive VibrationType where
  | NONE
  | SHORT
  | MEDIUM
  | LONG
  deriving DecidableEq

/-- Numeric values of `VibrationType`. -/
def VibrationType.val : VibrationType → Nat
  | .NONE => 0x00
  | .SHORT => 0x01
  | .MEDIUM => 0x02
  | .LONG => 0x03

/-- Predicate for a Python `int` acceptable inside a `bytearray`. -/
def pyByte (v : Int) : Bool :=
  decide (0 ≤ v) && decide (v ≤ 255)

/-- Model of `bytearray(values)`: succeeds with the byte list when every
value is in `0..255`, otherwise raises `ValueError`. -/
def toBytes (l : List Int) : Except PyErr (List Nat) :=
  if l.all pyByte then .ok (l.map Int.toNat) else .error .valueError

/-- Commands from `myo/commands.py`: one constructor per `Command`
subclass, carrying that subclass's constructor fields. -/
inductive Command where
  | setMode (classifierMode : ClassifierMode) (emgMode : EMGMode) (imuMode : IMUMode)
  | vibrate (vibrationType : VibrationType)
  | deepSleep
  | led (logo : List Int) (line : List Int)
  | vibrate2 (duration : Nat) (strength : Nat)
  | setSleepMode (sleepMode : SleepMode)
  | unlock (unlockType : UnlockType)
  | userAction (userActionType : UserActionType)
  deriving DecidableEq

/-- Opcode bytes (`cmd` class attributes in `myo/commands.py`). -/
def Command.cmd : Command → Nat
  | .setMode _ _ _ => 0x01
  | .vibrate _ => 0x03
  | .deepSleep => 0x04
  | .led _ _ => 0x06
  | .vibrate2 _ _ => 0x07
  | .setSleepMode _ => 0x09
  | .unlock _ => 0x0A
  | .userAction _ => 0x0B

/-- Raw integer sequences handed to `bytearray(...)` by each `payload`
property in `myo/commands.py`. `SetMode` emits EMG, IMU, Classifier values
in that order; `Vibrate2` emits duration high byte, duration low byte,
strength; `LED` emits `logo + line`; `DeepSleep` emits nothing. -/
def Command.payloadInts : Command → List Int
  | .setMode c e i => [(e.val : Int), (i.val : Int), (c.val : Int)]
  | .vibrate v => [(v.val : Int)]
  | .deepSleep => []
  | .led logo line => logo ++ line
  | .vibrate2 d s => [(((d >>> 8) &&& 0xFF : Nat) : Int), ((d &&& 0xFF : Nat) : Int), (s : Int)]
  | .setSleepMode m => [(m.val : Int)]
  | .unlock u => [(u.val : Int)]
  | .userAction a => [(a.val : Int)]

/-- The `payload` property: `bytearray` of the raw values. -/
def Command.payloadBytes (c : Command) : Except PyErr (List Nat) :=
  toBytes c.payloadInts

/-- The `data` property from `myo/commands.py`: evaluates the payload, then
builds the header `bytearray([cmd, len(payload)])` and concatenates. -/
def Command.data (c : Command) : Except PyErr (List Nat) :=
  match c.payloadBytes with
  | .error e => .error e
  | .ok p =>
    match toBytes [(c.cmd : Int), (p.length : Int)] with
    | .error e => .error e
    | .ok h => .ok (h ++ p)

/-- Well-typedness of a command value: the constraints under which the
Python object is constructible through the module's own validation
(`LED.__init__` length checks) and serializes without a byte-range error.
Enum-carrying variants are unconstrained. -/
def Command.wf : Command → Bool
  | .led logo line =>
      (logo.length == 3) && (line.length == 3) && (logo ++ line).all pyByte
  | .vibrate2 _ s => s ≤ 255
  | _ => true

/-- Payload length fixed per variant, as stated by the specification
(3 for SetMode, 1 for Vibrate, 3 for Vibrate2, 0 for DeepSleep, 6 for LED,
1 for SetSleepMode, Unlock and UserAction). -/
def Command.specPayloadLen : Command → Nat
  | .setMode _ _ _ => 3
  | .vibrate _ => 1
  | .deepSleep => 0
  | .led _ _ => 6
  | .vibrate2 _ _ => 3
  | .setSleepMode _ => 1
  | .unlock _ => 1
  | .userAction _ => 1

/-- Legacy `SetMode.value` from `myo/command.py`: the tuple
`(emg.value, imu.value, classifier.value)`. -/
def oldSetModeValue (emg : EMGMode) (imu : IMUMode) (classifier : ClassifierMode) : List Int :=
  [(emg.val : Int), (imu.val : Int), (classifier.val : Int)]

/-- Legacy `Command.data` from `myo/command.py` applied to a `SetMode`
object (opcode `0x01`): `bytearray([cmd, len(self)]) + self.bytearray()`. -/
def oldSetModeData (emg : EMGMode) (imu : IMUMode) (classifier : ClassifierMode) :
    Except PyErr (List Nat) := do
  let h ← toBytes [(0x01 : Int), ((oldSetModeValue emg imu classifier).length : Int)]
  let b ← toBytes (oldSetModeValue emg imu classifier)
  pure (h ++ b)

/-- Signed interpretation of a byte, as `struct.unpack` format `b`. -/
def sbyte (b : Nat) : Int :=
  if b < 128 then (b : Int) else (b : Int) - 256

/-- Little-endian unsigned 16-bit value at offset `i`, as format `H`. -/
def u16at (bs : List Nat) (i : Nat) : Nat :=
  bs.getD i 0 + 256 * bs.getD (i + 1) 0

/-- Little-endian signed 16-bit value at offset `i`, as format `h`. -/
def s16at (bs : List Nat) (i : Nat) : Int :=
  if u16at bs i < 32768 then (u16at bs i : Int) else (u16at bs i : Int) - 65536

/-- Arm values from `myo/types.py` (`Arm`). -/
inductive Arm where
  | RIGHT
  | LEFT
  | UNKNOWN
  deriving DecidableEq

/-- Enum lookup `Arm(n)`: `none` models the `ValueError` branch. -/
def Arm.ofNat? (n : Nat) : Option Arm :=
  if n = 0x01 then some .RIGHT
  else if n = 0x02 then some .LEFT
  else if n = 0xFF then some .UNKNOWN
  else none

/-- X directions from `myo/types.py` (`XDirection`). -/
inductive XDirection where
  | TOWARD_WRIST
  | TOWARD_ELBOW
  | DIRECTION_UNKNOWN
  deriving DecidableEq

/-- Enum lookup `XDirection(n)`. -/
def XDirection.ofNat? (n : Nat) : Option XDirection :=
  if n = 0x01 then some .TOWARD_WRIST
  else if n = 0x02 then some .TOWARD_ELBOW
  else if n = 0xFF then some .DIRECTION_UNKNOWN
  else none

/-- Classifier event types from `myo/types.py` (`ClassifierEventType`). -/
inductive ClassifierEventType where
  | ARM_SYNCED
  | ARM_UNSYNCED
  | POSE
  | UNLOCKED
  | LOCKED
  | SYNC_FAILED
  deriving DecidableEq

/-- Enum lookup `ClassifierEventType(n)`. -/
def ClassifierEventType.ofNat? (n : Nat) : Option ClassifierEventType :=
  if n = 0x01 then some .ARM_SYNCED
  else if n = 0x02 then some .ARM_UNSYNCED
  else if n = 0x03 then some .POSE
  else if n = 0x04 then some .UNLOCKED
  else if n = 0x05 then some .LOCKED
  else if n = 0x06 then some .SYNC_FAILED
  else none

/-- Poses from `myo/types.py` (`Pose`). -/
inductive Pose where
  | REST
  | FIST
  | WAVE_IN
  | WAVE_OUT
  | FINGERS_SPREAD
  | DOUBLE_TAP
  | UNKNOWN
  deriving DecidableEq

/-- Enum lookup `Pose(n)`. -/
def Pose.ofNat? (n : Nat) : Option Pose :=
  if n = 0x0000 then some .REST
  else if n = 0x0001 then some .FIST
  else if n = 0x0002 then some .WAVE_IN
  else if n = 0x0003 then some .WAVE_OUT
  else if n = 0x0004 then some .FINGERS_SPREAD
  else if n = 0x0005 then some .DOUBLE_TAP
  else if n = 0xFFFF then some .UNKNOWN
  else none

/-- Python `.name` of a `Pose`, as a character list. -/
def Pose.pyName : Pose → List Char
  | .REST => ['R', 'E', 'S', 'T']
  | .FIST => ['F', 'I', 'S', 'T']
  | .WAVE_IN => ['W', 'A', 'V', 'E', '_', 'I', 'N']
  | .WAVE_OUT => ['W', 'A', 'V', 'E', '_', 'O', 'U', 'T']
  | .FINGERS_SPREAD => ['F', 'I', 'N', 'G', 'E', 'R', 'S', '_', 'S', 'P', 'R', 'E', 'A', 'D']
  | .DOUBLE_TAP => ['D', 'O', 'U', 'B', 'L', 'E', '_', 'T', 'A', 'P']
  | .UNKNOWN => ['U', 'N', 'K', 'N', 'O', 'W', 'N']

/-- Sync results from `myo/types.py` (`SyncResult`). -/
inductive SyncResult where
  | FAILED_TOO_HARD
  deriving DecidableEq

/-- Enum lookup `SyncResult(n)`. -/
def SyncResult.ofNat? (n : Nat) : Option SyncResult :=
  if n = 0x01 then some .FAILED_TOO_HARD else none

/-- Motion event types from `myo/types.py` (`MotionEventType`). -/
inductive MotionEventType where
  | TAP
  | UNKNOWN1
  | UNKNOWN2
  deriving DecidableEq

/-- Enum lookup `MotionEventType(t)` for a signed tag byte. -/
def MotionEventType.ofInt? (t : Int) : Option MotionEventType :=
  if t = 0 then some .TAP
  else if t = 1 then some .UNKNOWN1
  else if t = 2 then some .UNKNOWN2
  else none

/-- Classifier model types from `myo/types.py` (`ClassifierModelType`). -/
inductive ClassifierModelType where
  | BUILTIN
  | CUSTOM
  deriving DecidableEq

/-- Enum lookup `ClassifierModelType(n)`. -/
def ClassifierModelType.ofNat? (n : Nat) : Option ClassifierModelType :=
  if n = 0 then some .BUILTIN else if n = 1 then some .CUSTOM else none

/-- Python `.name` of a `ClassifierModelType`. -/
def ClassifierModelType.pyName : ClassifierModelType → List Char
  | .BUILTIN => ['B', 'U', 'I', 'L', 'T', 'I', 'N']
  | .CUSTOM => ['C', 'U', 'S', 'T', 'O', 'M']

/-- SKUs from `myo/types.py` (`SKU`). -/
inductive SKU where
  | UNKNOWN
  | BLACK
  | WHITE
  deriving DecidableEq

/-- Enum lookup `SKU(n)`. -/
def SKU.ofNat? (n : Nat) : Option SKU :=
  if n = 0 then some .UNKNOWN else if n = 1 then some .BLACK
  else if n = 2 then some .WHITE else none

/-- Python `.name` of a `SKU`. -/
def SKU.pyName : SKU → List Char
  | .UNKNOWN => ['U', 'N', 'K', 'N', 'O', 'W', 'N']
  | .BLACK => ['B', 'L', 'A', 'C', 'K']
  | .WHITE => ['W', 'H', 'I', 'T', 'E']

/-- Hardware revisions from `myo/types.py` (`HardwareRev`). -/
inductive HardwareRev where
  | UNKNOWN
  | REVC
  | REVD
  | REVS
  deriving DecidableEq

/-- Enum lookup `HardwareRev(n)`. -/
def HardwareRev.ofNat? (n : Nat) : Option HardwareRev :=
  if n = 0 then some .UNKNOWN else if n = 1 then some .REVC
  else if n = 2 then some .REVD else if n = 3 then some .REVS else none

/-- Decoded EMG notification from `myo/types.py` (`EMGData`): two
8-channel signed-byte samples. -/
structure EMGData where
  sample1 : List Int
  sample2 : List Int
  deriving DecidableEq

/-- Model of `EMGData.__init__`: `struct.unpack("<8b", data[:8])` then
`struct.unpack("<8b", data[8:])`; each unpack raises `struct.error` unless
its slice is exactly 8 bytes. -/
def EMGData.decode (bs : List Nat) : Except PyErr EMGData :=
  if (bs.take 8).length == 8 then
    if (bs.drop 8).length == 8 then
      .ok ⟨(bs.take 8).map sbyte, (bs.drop 8).map sbyte⟩
    else .error .structError
  else .error .structError

/-- Decoded FV notification from `myo/types.py` (`FVData`): eight
little-endian uint16 filtered values and a signed mask byte. -/
structure FVData where
  fv : List Nat
  mask : Int
  deriving DecidableEq

/-- Model of `FVData.__init__`: `assert len(data) == 17` then
`struct.unpack('<8Hb', data)`. -/
def FVData.decode (bs : List Nat) : Except PyErr FVData :=
  if bs.length == 17 then
    .ok ⟨[u16at bs 0, u16at bs 2, u16at bs 4, u16at bs 6,
          u16at bs 8, u16at bs 10, u16at bs 12, u16at bs 14],
         sbyte (bs.getD 16 0)⟩
  else .error .assertError

/-- Orientation quaternion scaled by `ORIENTATION_SCALE` (16384.0); the
scale divisions are powers of two, hence exact in Python floats and
modelled with rationals. -/
structure Orientation where
  w : Rat
  x : Rat
  y : Rat
  z : Rat
  deriving DecidableEq

/-- Decoded IMU notification from `myo/types.py` (`IMUData`). -/
structure IMUData where
  orientation : Orientation
  accelerometer : List Rat
  gyroscope : List Rat
  deriving DecidableEq

/-- Model of `IMUData.__init__`: `struct.unpack("<10h", data)` then scaling
by `ORIENTATION_SCALE` (16384), `ACCELEROMETER_SCALE` (2048),
`GYROSCOPE_SCALE` (16). -/
def IMUData.decode (bs : List Nat) : Except PyErr IMUData :=
  if bs.length == 20 then
    .ok ⟨⟨(s16at bs 0 : Rat) / 16384, (s16at bs 2 : Rat) / 16384,
          (s16at bs 4 : Rat) / 16384, (s16at bs 6 : Rat) / 16384⟩,
         [(s16at bs 8 : Rat) / 2048, (s16at bs 10 : Rat) / 2048, (s16at bs 12 : Rat) / 2048],
         [(s16at bs 14 : Rat) / 16, (s16at bs 16 : Rat) / 16, (s16at bs 18 : Rat) / 16]⟩
  else .error .structError

/-- Decoded motion event from `myo/types.py` (`MotionEvent`); the tap
fields are set only for `TAP` events, mirroring the conditional attribute
assignment of the source. -/
structure MotionEvent where
  t : MotionEventType
  tapDirection : Option Int
  tapCount : Option Int
  deriving DecidableEq

/-- Model of `MotionEvent.__init__`: `struct.unpack("<3b", data)`, then
enum lookup of the tag, then tap fields for `TAP`. -/
def MotionEvent.decode (bs : List Nat) : Except PyErr MotionEvent :=
  if bs.length == 3 then
    match MotionEventType.ofInt? (sbyte (bs.getD 0 0)) with
    | none => .error .valueError
    | some t =>
      if t = .TAP then .ok ⟨t, some (sbyte (bs.getD 1 0)), some (sbyte (bs.getD 2 0))⟩
      else .ok ⟨t, none, none⟩
  else .error .structError

/-- Decoded classifier event from `myo/types.py` (`ClassifierEvent`); the
variant-specific fields are set only by the matching branch. -/
structure ClassifierEvent where
  t : ClassifierEventType
  arm : Option Arm
  xDirection : Option XDirection
  pose : Option Pose
  syncResult : Option SyncResult
  deriving DecidableEq

/-- Model of `ClassifierEvent.__init__`: `struct.unpack('<6B', data)[0]`
(raising `struct.error` unless the buffer is exactly 6 bytes), tag enum
lookup, then the tag-selected re-unpack and enum lookups. -/
def ClassifierEvent.decode (bs : List Nat) : Except PyErr ClassifierEvent :=
  if bs.length == 6 then
    match ClassifierEventType.ofNat? (bs.getD 0 0) with
    | none => .error .valueError
    | some t =>
      match t with
      | .ARM_SYNCED =>
        match Arm.ofNat? (bs.getD 1 0) with
        | none => .error .valueError
        | some a =>
          match XDirection.ofNat? (bs.getD 2 0) with
          | none => .error .valueError
          | some x => .ok ⟨t, some a, some x, none, none⟩
      | .POSE =>
        match Pose.ofNat? (u16at bs 1) with
        | none => .error .valueError
        | some p => .ok ⟨t, none, none, some p, none⟩
      | .SYNC_FAILED =>
        match SyncResult.ofNat? (bs.getD 1 0) with
        | none => .error .valueError
        | some s => .ok ⟨t, none, none, none, some s⟩
      | _ => .ok ⟨t, none, none, none, none⟩
  else .error .structError

/-- Decoded firmware version from `myo/types.py` (`FirmwareVersion`). -/
structure FirmwareVersion where
  major : Nat
  minor : Nat
  patch : Nat
  hardwareRev : HardwareRev
  deriving DecidableEq

/-- Model of `FirmwareVersion.__init__`: `struct.unpack("<4H", data)`. -/
def FirmwareVersion.decode (bs : List Nat) : Except PyErr FirmwareVersion :=
  if bs.length == 8 then
    match HardwareRev.ofNat? (u16at bs 6) with
    | none => .error .valueError
    | some hr => .ok ⟨u16at bs 0, u16at bs 2, u16at bs 4, hr⟩
  else .error .structError

/-- Model of Python `hex(i)[-2:]` for a byte: two hex digits for values of
16 and above, and the literal character x followed by one digit below 16
(because `hex` does not zero-pad). -/
def pyHexLast2 (n : Nat) : List Char :=
  if n < 16 then ['x', Nat.digitChar n] else [Nat.digitChar (n / 16), Nat.digitChar (n % 16)]

/-- Serial-number formatting from `FirmwareInfo.__init__`: reverse the six
bytes, take `hex(i)[-2:]` of each, join with a colon, uppercase. The
reversal is applied by the caller. -/
def serialChars (ser : List Nat) : List Char :=
  (List.intercalate [':'] (ser.map pyHexLast2)).map Char.toUpper

/-- Decoded firmware info from `myo/types.py` (`FirmwareInfo`): the
underscore-prefixed attributes set by `__init__`. -/
structure FirmwareInfo where
  serialNumber : List Char
  unlockPose : List Char
  activeClassifierType : List Char
  activeClassifierIndex : Nat
  hasCustomClassifier : Bool
  streamIndicating : Bool
  sku : List Char
  reserved : List Nat
  deriving DecidableEq

/-- Model of `FirmwareInfo.__init__`: `struct.unpack("<6BH12B", data)` (20
bytes exactly), serial from the reversed first six bytes, unlock pose name
from the uint16 at offsets 6..7, classifier type from byte 8, classifier
index from byte 9, the custom-classifier flag from byte 10, the
stream-indicating flag from byte 11, SKU from byte 12, reserved bytes
13..19. -/
def FirmwareInfo.decode (bs : List Nat) : Except PyErr FirmwareInfo :=
  if bs.length == 20 then
    match Pose.ofNat? (u16at bs 6) with
    | none => .error .valueError
    | some p =>
      match ClassifierModelType.ofNat? (bs.getD 8 0) with
      | none => .error .valueError
      | some ct =>
        match SKU.ofNat? (bs.getD 12 0) with
        | none => .error .valueError
        | some sk =>
          .ok ⟨serialChars (bs.take 6).reverse, p.pyName, ct.pyName, bs.getD 9 0,
               bs.getD 10 0 != 0, bs.getD 11 0 != 0, sk.pyName, bs.drop 13⟩
  else .error .structError

/-- Keys of the dictionary returned by `FirmwareInfo.to_dict`. -/
inductive FIKey where
  | serial_number
  | unlock_pose
  | active_classifier_type
  | active_classifier_index
  | has_custom_classifier
  | stream_indicating
  | sku
  deriving DecidableEq

/-- Python values appearing in `FirmwareInfo.to_dict`. -/
inductive PyVal where
  | s (v : List Char)
  | b (v : Bool)
  | n (v : Nat)
  deriving DecidableEq

/-- Model of `FirmwareInfo.to_dict`, entry for entry; in the source the
`unlock_pose` entry is assigned `self._has_custom_classifier`. -/
def FirmwareInfo.toDict (fi : FirmwareInfo) : List (FIKey × PyVal) :=
  [(.serial_number, .s fi.serialNumber),
   (.unlock_pose, .b fi.hasCustomClassifier),
   (.active_classifier_type, .s fi.activeClassifierType),
   (.active_classifier_index, .n fi.activeClassifierIndex),
   (.has_custom_classifier, .b fi.hasCustomClassifier),
   (.stream_indicating, .b fi.streamIndicating),
   (.sku, .s fi.sku)]

/-- Handle registry from `myo/handle.py` (`Handle`), the same name/value
table the client modules use through `myo/profile.py`. -/
inductive Handle where
  | DEVICE_INFORMATION
  | MANUFACTURER_NAME_STRING
  | BATTERY_SERVICE
  | BATTERY_LEVEL
  | CONTROL_SERVICE
  | FIRMWARE_INFO
  | FIRMWARE_VERSION
  | COMMAND
  | IMU_SERVICE
  | IMU_DATA
  | MOTION_EVENT
  | CLASSIFIER_SERVICE
  | CLASSIFIER_EVENT
  | FV_SERVICE
  | FV_DATA
  | EMG_SERVICE
  | EMG0_DATA
  | EMG1_DATA
  | EMG2_DATA
  | EMG3_DATA
  | UNKNOWN_SERVICE
  | UNKNOWN_CHAR
  deriving DecidableEq

/-- Numeric attribute handles of the registry. -/
def Handle.val : Handle → Nat
  | .DEVICE_INFORMATION => 12
  | .MANUFACTURER_NAME_STRING => 13
  | .BATTERY_SERVICE => 15
  | .BATTERY_LEVEL => 16
  | .CONTROL_SERVICE => 19
  | .FIRMWARE_INFO => 20
  | .FIRMWARE_VERSION => 22
  | .COMMAND => 24
  | .IMU_SERVICE => 26
  | .IMU_DATA => 27
  | .MOTION_EVENT => 30
  | .CLASSIFIER_SERVICE => 33
  | .CLASSIFIER_EVENT => 34
  | .FV_SERVICE => 37
  | .FV_DATA => 38
  | .EMG_SERVICE => 41
  | .EMG0_DATA => 42
  | .EMG1_DATA => 45
  | .EMG2_DATA => 48
  | .EMG3_DATA => 51
  | .UNKNOWN_SERVICE => 54
  | .UNKNOWN_CHAR => 55

/-- Enum lookup `Handle(n)` as performed by `notify_callback`; `none`
models the `ValueError` raised by `aenum` for a value outside the
registry. -/
def Handle.ofNat? (n : Nat) : Option Handle :=
  if n = 12 then some .DEVICE_INFORMATION
  else if n = 13 then some .MANUFACTURER_NAME_STRING
  else if n = 15 then some .BATTERY_SERVICE
  else if n = 16 then some .BATTERY_LEVEL
  else if n = 19 then some .CONTROL_SERVICE
  else if n = 20 then some .FIRMWARE_INFO
  else if n = 22 then some .FIRMWARE_VERSION
  else if n = 24 then some .COMMAND
  else if n = 26 then some .IMU_SERVICE
  else if n = 27 then some .IMU_DATA
  else if n = 30 then some .MOTION_EVENT
  else if n = 33 then some .CLASSIFIER_SERVICE
  else if n = 34 then some .CLASSIFIER_EVENT
  else if n = 37 then some .FV_SERVICE
  else if n = 38 then some .FV_DATA
  else if n = 41 then some .EMG_SERVICE
  else if n = 42 then some .EMG0_DATA
  else if n = 45 then some .EMG1_DATA
  else if n = 48 then some .EMG2_DATA
  else if n = 51 then some .EMG3_DATA
  else if n = 54 then some .UNKNOWN_SERVICE
  else if n = 55 then some .UNKNOWN_CHAR
  else none

/-- Modelled from the spec: `AggregatedData` (its class is not under
`src/myo/types.py`) pairs one `FVData` with one `IMUData` sample. -/
structure AggregatedData where
  fvData : FVData
  imuData : IMUData
  deriving DecidableEq

/-- Aggregation slots of `MyoClient` in `myo/core.py`
(`fv_aggregated` and `imu_aggregated`). -/
structure AggSlots where
  fvAggregated : Option FVData
  imuAggregated : Option IMUData
  deriving DecidableEq

/-- Model of `MyoClient.on_data` in `myo/core.py`: store the incoming
sample in its slot; when both slots are populated, emit one
`AggregatedData` and clear both slots. -/
def MyoClient.onData (slots : AggSlots) (d : FVData ⊕ IMUData) :
    AggSlots × Option AggregatedData :=
  let s1 : AggSlots :=
    match d with
    | .inl fv => { slots with fvAggregated := some fv }
    | .inr imu => { slots with imuAggregated := some imu }
  match s1.fvAggregated, s1.imuAggregated with
  | some fv, some imu => (⟨none, none⟩, some ⟨fv, imu⟩)
  | _, _ => (s1, none)

/-- Iterated ingestion through `MyoClient.on_data`, collecting the
emission of each step. -/
def MyoClient.runOnData (slots : AggSlots) :
    List (FVData ⊕ IMUData) → AggSlots × List (Option AggregatedData)
  | [] => (slots, [])
  | d :: ds =>
    let p1 := MyoClient.onData slots d
    let p2 := MyoClient.runOnData p1.1 ds
    (p2.1, p1.2 :: p2.2)

/-- Configuration and aggregation state of a `MyoClient` relevant to
`notify_callback`. -/
structure ClientState where
  aggregateAll : Bool
  aggregateEmg : Bool
  slots : AggSlots
  deriving DecidableEq

/-- Consumer callbacks invoked by `MyoClient.notify_callback`; the
`emgDataSingle` case models `EMGDataSingle` (class not under
`src/myo/types.py`), which carries one 8-channel sample. -/
inductive Event where
  | classifierEvent (ce : ClassifierEvent)
  | fvData (d : FVData)
  | imuData (d : IMUData)
  | motionEvent (me : MotionEvent)
  | emgData (d : EMGData)
  | emgDataSingle (sample : List Int)
  | aggregatedData (ad : AggregatedData)
  deriving DecidableEq

/-- Model of `MyoClient.notify_callback` in `myo/core.py`: the handle
number is converted with `Handle(sender.handle)` (raising `ValueError` for
an unregistered number), then dispatched through the `elif` chain; known
handles without a branch fall through and produce nothing. -/
def MyoClient.notifyCallback (st : ClientState) (h : Nat) (bs : List Nat) :
    Except PyErr (ClientState × List Event) :=
  match Handle.ofNat? h with
  | none => .error .valueError
  | some hd =>
    if hd = .CLASSIFIER_EVENT then
      match ClassifierEvent.decode bs with
      | .error e => .error e
      | .ok ce => .ok (st, [.classifierEvent ce])
    else if hd = .FV_DATA then
      match FVData.decode bs with
      | .error e => .error e
      | .ok fv =>
        if st.aggregateAll then
          let p := MyoClient.onData st.slots (.inl fv)
          .ok ({ st with slots := p.1 },
               match p.2 with
               | some ad => [.aggregatedData ad]
               | none => [])
        else .ok (st, [.fvData fv])
    else if hd = .IMU_DATA then
      match IMUData.decode bs with
      | .error e => .error e
      | .ok imu =>
        if st.aggregateAll then
          let p := MyoClient.onData st.slots (.inr imu)
          .ok ({ st with slots := p.1 },
               match p.2 with
               | some ad => [.aggregatedData ad]
               | none => [])
        else .ok (st, [.imuData imu])
    else if hd = .MOTION_EVENT then
      match MotionEvent.decode bs with
      | .error e => .error e
      | .ok me => .ok (st, [.motionEvent me])
    else if hd = .EMG0_DATA ∨ hd = .EMG1_DATA ∨ hd = .EMG2_DATA ∨ hd = .EMG3_DATA then
      match EMGData.decode bs with
      | .error e => .error e
      | .ok emg =>
        if st.aggregateEmg then .ok (st, [.emgDataSingle emg.sample1, .emgDataSingle emg.sample2])
        else .ok (st, [.emgData emg])
    else .ok (st, [])

/-- LED command object state from `myo/commands.py` (`LED`). -/
structure LED where
  logo : List Int
  line : List Int
  deriving DecidableEq

/-- Model of `LED.__init__` in `myo/commands.py`: raises `ValueError` when
either list is not exactly three long; no other validation. -/
def LED.init (logo line : List Int) : Except PyErr LED :=
  if logo.length == 3 && line.length == 3 then .ok ⟨logo, line⟩ else .error .valueError

/-- Model of the validation and command construction of `Myo.led` in
`myo/core.py`: length check, then per-list range check of every component
against `0..255`, then `LED(logo, line)`. -/
def MyoDevice.led (logo line : List Int) : Except PyErr Command :=
  if logo.length == 3 && line.length == 3 then
    if logo.all pyByte then
      if line.all pyByte then .ok (.led logo line)
      else .error .valueError
    else .error .valueError
  else .error .valueError

/-- Modelled from the spec: the configuring-indicator color constant
`RGB_ORANGE` (`myo/constants.py` is not under src/ with its RGB values); a
valid RGB triple whose exact components are irrelevant to the claims. -/
def RGB_ORANGE : List Int := [255, 165, 0]

/-- Modelled from the spec: the ready-indicator color constant `RGB_PINK`;
a valid RGB triple whose exact components are irrelevant to the claims. -/
def RGB_PINK : List Int := [255, 0, 255]

/-- The mode triple stored on the client by `MyoClient.setup`. -/
structure ModeTriple where
  classifierMode : ClassifierMode
  emgMode : EMGMode
  imuMode : IMUMode
  deriving DecidableEq

/-- Recognizer for the SetMode variant. -/
def Command.isSetMode : Command → Bool
  | .setMode _ _ _ => true
  | _ => false

/-- Model of `MyoClient.setup` in `myo/core.py` on a connected client: the
stored mode triple (forced to DISABLED, SEND_FILT, SEND_DATA when
`aggregate_all` is set, the arguments otherwise) together with the command
sequence written to the device: configuring LED, three short vibrations,
never-sleep, SetMode with the stored triple, ready LED. The battery read
is not a command write and is omitted. -/
def MyoClient.setupTrace (aggregateAll : Bool) (classifierMode : ClassifierMode)
    (emgMode : EMGMode) (imuMode : IMUMode) : Except PyErr (ModeTriple × List Command) :=
  match MyoDevice.led RGB_ORANGE RGB_ORANGE with
  | .error e => .error e
  | .ok led1 =>
    let stored : ModeTriple :=
      if aggregateAll then ⟨.DISABLED, .SEND_FILT, .SEND_DATA⟩
      else ⟨classifierMode, emgMode, imuMode⟩
    match MyoDevice.led RGB_PINK RGB_PINK with
    | .error e => .error e
    | .ok led2 =>
      .ok (stored, [led1, .vibrate .SHORT, .vibrate .SHORT, .vibrate .SHORT,
                    .setSleepMode .NEVER_SLEEP,
                    .setMode stored.classifierMode stored.emgMode stored.imuMode, led2])

/-- Model of `MyoClient._get_emg_handles` in `myo/core.py`; the stored
mode is `Optional` in the source, hence the `Option` argument. -/
def MyoClient.getEmgHandles (emgMode : Option EMGMode) : List Nat :=
  if emgMode = some .SEND_EMG ∨ emgMode = some .SEND_RAW then
    [Handle.EMG0_DATA.val, Handle.EMG1_DATA.val, Handle.EMG2_DATA.val, Handle.EMG3_DATA.val]
  else if emgMode = some .SEND_FILT then [Handle.FV_DATA.val]
  else []

/-- Model of `MyoClient._get_imu_handles` in `myo/core.py`. -/
def MyoClient.getImuHandles (imuMode : Option IMUMode) : List Nat :=
  (if ¬(imuMode = some .NONE ∨ imuMode = some .SEND_EVENTS) then [Handle.IMU_DATA.val] else [])
    ++ (if imuMode = some .SEND_EVENTS ∨ imuMode = some .SEND_ALL then [Handle.MOTION_EVENT.val] else [])

/-- Model of `MyoClient._get_classifier_handles` in `myo/core.py`. -/
def MyoClient.getClassifierHandles (classifierMode : Option ClassifierMode) : List Nat :=
  if classifierMode = some .ENABLED then [Handle.CLASSIFIER_EVENT.val] else []

/-- Handles subscribed by `MyoClient.start` in `myo/core.py`: the EMG,
IMU, then classifier handle lists. -/
def MyoClient.startHandles (classifierMode : Option ClassifierMode) (emgMode : Option EMGMode)
    (imuMode : Option IMUMode) : List Nat :=
  MyoClient.getEmgHandles emgMode ++ MyoClient.getImuHandles imuMode
    ++ MyoClient.getClassifierHandles classifierMode

/-- Handles unsubscribed by `MyoClient.stop` in `myo/core.py`: the same
three policy functions, in the same order. -/
def MyoClient.stopHandles (classifierMode : Option ClassifierMode) (emgMode : Option EMGMode)
    (imuMode : Option IMUMode) : List Nat :=
  MyoClient.getEmgHandles emgMode ++ MyoClient.getImuHandles imuMode
    ++ MyoClient.getClassifierHandles classifierMode

/-- Concrete all-zero 20-byte firmware-info payload used as a witness
input. -/
def fwInfoBytesW : List Nat := List.replicate 20 0

/-- Decoded form of `fwInfoBytesW`. -/
def fwInfoW : FirmwareInfo :=
  ⟨serialChars (fwInfoBytesW.take 6).reverse, Pose.REST.pyName,
   ClassifierModelType.BUILTIN.pyName, 0, false, false, SKU.UNKNOWN.pyName,
   List.replicate 7 0⟩

instance {ε α : Type} [DecidableEq ε] [DecidableEq α] : DecidableEq (Except ε α) := fun a b =>
  match a, b with
  | .error e, .error f =>
      if h : e = f then .isTrue (by rw [h]) else .isFalse (fun hh => h (Except.error.inj hh))
  | .ok x, .ok y =>
      if h : x = y then .isTrue (by rw [h]) else .isFalse (fun hh => h (Except.ok.inj hh))
  | .error _, .ok _ => .isFalse (fun hh => Except.noConfusion hh)
  | .ok _, .error _ => .isFalse (fun hh => Except.noConfusion hh)

/-- Opcode bytes all fit in a byte. -/
theorem Command.cmd_le_255 (c : Command) : c.cmd ≤ 255 := by
  cases c <;> simp [Command.cmd]

/-- A bytearray conversion succeeds when every raw value is a byte. -/
theorem toBytes_of_all (l : List Int) (hall : l.all pyByte = true) :
    toBytes l = .ok (l.map Int.toNat) := by
  simp [toBytes, hall]

/-- A coerced natural below 256 passes the bytearray range check. -/
theorem pyByte_natCast (n : Nat) (h : n ≤ 255) : pyByte (n : Int) = true := by
  simp [pyByte]
  omega

/-- The `payload` property succeeds when every raw value is a byte. -/
theorem Command.payloadBytes_of_all (c : Command) (hall : c.payloadInts.all pyByte = true) :
    c.payloadBytes = .ok (c.payloadInts.map Int.toNat) :=
  toBytes_of_all _ hall

/-- The `data` property yields `[cmd, payload_length] ++ payload` whenever
the raw payload values are bytes and the payload is at most 255 long. -/
theorem Command.data_of_all (c : Command) (hall : c.payloadInts.all pyByte = true)
    (hlen : c.payloadInts.length ≤ 255) :
    c.data = .ok (c.cmd :: c.payloadInts.length :: c.payloadInts.map Int.toNat) := by
  have hp := c.payloadBytes_of_all hall
  have hhdr : toBytes [(c.cmd : Int), (c.payloadInts.length : Int)] =
      .ok [c.cmd, c.payloadInts.length] := by
    rw [toBytes_of_all]
    · simp
    · simp [pyByte_natCast _ c.cmd_le_255, pyByte_natCast _ (by simpa using hlen)]
  simp [Command.data, hp, hhdr]

/-- C1: for every SetMode command built from a classifier mode `c`, an EMG
mode `e` and an IMU mode `i`, the encoded 3-byte payload is exactly
`(e.value, i.value, c.value)` — EMG byte first, then IMU, then Classifier —
in the current codec (`myo/commands.py`, whose constructor takes classifier
first) and likewise through the legacy codec's frame (`myo/command.py`). -/
theorem C1_setMode_payload_order (c : ClassifierMode) (e : EMGMode) (i : IMUMode) :
    (Command.setMode c e i).payloadBytes = .ok [e.val, i.val, c.val] ∧
    (Command.setMode c e i).data = .ok [0x01, 3, e.val, i.val, c.val] ∧
    oldSetModeData e i c = .ok [0x01, 3, e.val, i.val, c.val] := by
  cases c <;> cases e <;> cases i <;> exact ⟨by decide, by decide, by decide⟩

/-- C2: for every command variant, encoding a well-typed command value
succeeds and the frame is `[opcode, payload_length] ++ payload`, with the
payload length fixed per variant (3 for SetMode, 1 for Vibrate, 3 for
Vibrate2, 0 for DeepSleep, 6 for LED, 1 for SetSleepMode, Unlock and
UserAction). -/
theorem C2_command_frame (c : Command) (h : c.wf = true) :
    ∃ p, c.payloadBytes = .ok p ∧ c.data = .ok (c.cmd :: p.length :: p) ∧
      p.length = c.specPayloadLen := by
  cases c with
  | setMode cm em im =>
      exact ⟨[em.val, im.val, cm.val], by cases cm <;> cases em <;> cases im <;> decide,
        by cases cm <;> cases em <;> cases im <;> decide,
        by cases cm <;> cases em <;> cases im <;> decide⟩
  | vibrate v => exact ⟨[v.val], by cases v <;> decide, by cases v <;> decide, by cases v <;> decide⟩
  | deepSleep => exact ⟨[], by decide, by decide, by decide⟩
  | led logo line =>
      have h3 : (Command.led logo line).payloadInts.all pyByte = true := by
        simp only [Command.wf, Bool.and_eq_true] at h
        simpa [Command.payloadInts] using h.2
      have hlen : (Command.led logo line).payloadInts.length = 6 := by
        simp only [Command.wf, Bool.and_eq_true, beq_iff_eq] at h
        simp [Command.payloadInts, h.1.1, h.1.2]
      refine ⟨(Command.led logo line).payloadInts.map Int.toNat,
        Command.payloadBytes_of_all _ h3, ?_, ?_⟩
      · rw [Command.data_of_all _ h3 (by omega)]
        simp
      · simp [hlen, Command.specPayloadLen]
  | vibrate2 d s =>
      have hs : s ≤ 255 := by simpa [Command.wf] using h
      have h3 : (Command.vibrate2 d s).payloadInts.all pyByte = true := by
        simp [Command.payloadInts, pyByte_natCast _ Nat.and_le_right, pyByte_natCast _ hs]
      refine ⟨[(d >>> 8) &&& 255, d &&& 255, s], ?_, ?_, rfl⟩
      · rw [Command.payloadBytes_of_all _ h3]
        simp [Command.payloadInts]
      · rw [Command.data_of_all _ h3 (by simp [Command.payloadInts])]
        simp [Command.payloadInts, Command.cmd]
  | setSleepMode m => exact ⟨[m.val], by cases m <;> decide, by cases m <;> decide, by cases m <;> decide⟩
  | unlock u => exact ⟨[u.val], by cases u <;> decide, by cases u <;> decide, by cases u <;> decide⟩
  | userAction a => exact ⟨[a.val], by cases a; decide, by cases a; decide, by cases a; decide⟩

/-- Witness for C2 at a concrete LED command. -/
theorem C2_witness :
    (Command.led [1, 2, 3] [4, 5, 6]).wf = true ∧
    (∃ p, (Command.led [1, 2, 3] [4, 5, 6]).payloadBytes = .ok p ∧
      (Command.led [1, 2, 3] [4, 5, 6]).data =
        .ok ((Command.led [1, 2, 3] [4, 5, 6]).cmd :: p.length :: p) ∧
      p.length = (Command.led [1, 2, 3] [4, 5, 6]).specPayloadLen) :=
  ⟨by decide, C2_command_frame (Command.led [1, 2, 3] [4, 5, 6]) (by decide)⟩

/-- C8: for every duration up to 65535 and strength up to 255, the
Vibrate2 payload is exactly three bytes: the high byte of the duration,
the low byte of the duration, then the strength byte. -/
theorem C8_vibrate2_payload (d s : Nat) (hd : d ≤ 65535) (hs : s ≤ 255) :
    (Command.vibrate2 d s).payloadBytes = .ok [d / 256, d % 256, s] ∧
    (Command.vibrate2 d s).data = .ok [0x07, 3, d / 256, d % 256, s] := by
  have e2 : d >>> 8 = d / 256 := Nat.shiftRight_eq_div_pow d 8
  have h1 : (d >>> 8) &&& 255 = d / 256 := by
    have e1 : (d >>> 8) &&& 255 = (d >>> 8) % 256 := Nat.and_pow_two_sub_one_eq_mod (d >>> 8) 8
    rw [e1, e2, Nat.mod_eq_of_lt (by omega)]
  have h2 : d &&& 255 = d % 256 := Nat.and_pow_two_sub_one_eq_mod d 8
  have h3 : (Command.vibrate2 d s).payloadInts.all pyByte = true := by
    simp [Command.payloadInts, pyByte_natCast _ Nat.and_le_right, pyByte_natCast _ hs]
  have hmap : (Command.vibrate2 d s).payloadInts.map Int.toNat = [d / 256, d % 256, s] := by
    simp only [Command.payloadInts, List.map, Int.toNat_natCast]
    rw [h1, h2]
  constructor
  · rw [Command.payloadBytes_of_all _ h3, hmap]
  · rw [Command.data_of_all _ h3 (by simp [Command.payloadInts]), hmap]
    simp [Command.payloadInts, Command.cmd]

/-- Witness for C8 at duration 258, strength 7. -/
theorem C8_witness :
    (258 : Nat) ≤ 65535 ∧ (7 : Nat) ≤ 255 ∧
    (Command.vibrate2 258 7).payloadBytes = .ok [1, 2, 7] ∧
    (Command.vibrate2 258 7).data = .ok [0x07, 3, 1, 2, 7] :=
  ⟨by decide, by decide, (C8_vibrate2_payload 258 7 (by decide) (by decide)).1,
    (C8_vibrate2_payload 258 7 (by decide) (by decide)).2⟩

/-- Byte-range check unfolded. -/
theorem pyByte_iff (v : Int) : pyByte v = true ↔ 0 ≤ v ∧ v ≤ 255 := by
  simp [pyByte]

/-- List byte-range check unfolded. -/
theorem all_pyByte_iff (l : List Int) : l.all pyByte = true ↔ ∀ v ∈ l, 0 ≤ v ∧ v ≤ 255 := by
  simp [List.all_eq_true, pyByte_iff]

/-- Success recognizer on a success value. -/
theorem isOk_ok {ε α : Type} (x : α) : (Except.ok x : Except ε α).isOk = true := rfl

/-- Success recognizer on an error value. -/
theorem isOk_error {ε α : Type} (e : ε) : (Except.error e : Except ε α).isOk = false := rfl

/-- C3 as stated is false: a notification on a handle outside the registry
(here handle 0) makes `notify_callback` raise a `ValueError` from the
`Handle(...)` enum lookup instead of logging, dropping and returning
normally. -/
theorem C3_counterexample :
    Handle.ofNat? 0 = none ∧
    MyoClient.notifyCallback ⟨false, false, ⟨none, none⟩⟩ 0 [] = .error .valueError ∧
    (MyoClient.notifyCallback ⟨false, false, ⟨none, none⟩⟩ 0 []).isOk = false :=
  ⟨rfl, rfl, rfl⟩

/-- C3 amended: for every incoming notification whose characteristic
handle is not one of the known registry handles, `notify_callback` raises
a `ValueError` (the registry enum lookup fails); the log-and-drop
treatment of unknown handles exists only in `get_services` and
`gatt_char_to_dict`, not in the dispatcher. -/
theorem C3_unknown_handle_raises (st : ClientState) (h : Nat) (bs : List Nat)
    (hu : Handle.ofNat? h = none) :
    MyoClient.notifyCallback st h bs = .error .valueError := by
  rw [MyoClient.notifyCallback, hu]

/-- Witness for the amended C3 at handle 99. -/
theorem C3_witness :
    Handle.ofNat? 99 = none ∧
    MyoClient.notifyCallback ⟨true, true, ⟨none, none⟩⟩ 99 [1, 2] = .error .valueError :=
  ⟨rfl, C3_unknown_handle_raises ⟨true, true, ⟨none, none⟩⟩ 99 [1, 2] rfl⟩

/-- C4 as stated is false: `LED.__init__` accepts a length-3 logo list
containing 256, a component outside `0..255`, without raising. -/
theorem C4_counterexample :
    LED.init [256, 0, 0] [0, 0, 0] = .ok ⟨[256, 0, 0], [0, 0, 0]⟩ := rfl

/-- C4 amended: `LED.__init__` validates only the lengths — construction
raises exactly when a list is not three long, and succeeds for every pair
of length-3 lists regardless of component values; the component range
`0..255` is checked by `Myo.led` (still before any transport write), which
succeeds exactly when both lists are length 3 with all components in
range, and then builds the LED command. -/
theorem C4_led_validation (logo line : List Int) :
    ((LED.init logo line).isOk = true ↔ logo.length = 3 ∧ line.length = 3) ∧
    ((MyoDevice.led logo line).isOk = true ↔
      logo.length = 3 ∧ line.length = 3 ∧
        (∀ v ∈ logo, 0 ≤ v ∧ v ≤ 255) ∧ (∀ v ∈ line, 0 ≤ v ∧ v ≤ 255)) ∧
    ((MyoDevice.led logo line).isOk = true →
      MyoDevice.led logo line = .ok (Command.led logo line)) := by
  refine ⟨?_, ?_, ?_⟩
  · rw [LED.init]
    split
    · rename_i hc
      simp only [Bool.and_eq_true, beq_iff_eq] at hc
      simp [isOk_ok, hc.1, hc.2]
    · rename_i hc
      simp only [Bool.and_eq_true, beq_iff_eq] at hc
      simp only [isOk_error]
      constructor
      · intro h
        exact absurd h (by simp)
      · intro h
        exact absurd h hc
  · rw [MyoDevice.led]
    split
    · rename_i hc
      simp only [Bool.and_eq_true, beq_iff_eq] at hc
      split
      · rename_i hlogo
        split
        · rename_i hline
          constructor
          · intro _
            exact ⟨hc.1, hc.2, (all_pyByte_iff logo).mp hlogo, (all_pyByte_iff line).mp hline⟩
          · intro _
            exact isOk_ok _
        · rename_i hline
          simp only [isOk_error]
          constructor
          · intro h
            exact absurd h (by simp)
          · intro h
            exact absurd ((all_pyByte_iff _).mpr h.2.2.2) hline
      · rename_i hlogo
        simp only [isOk_error]
        constructor
        · intro h
          exact absurd h (by simp)
        · intro h
          exact absurd ((all_pyByte_iff _).mpr h.2.2.1) hlogo
    · rename_i hc
      simp only [Bool.and_eq_true, beq_iff_eq] at hc
      simp only [isOk_error]
      constructor
      · intro h
        exact absurd h (by simp)
      · intro h
        exact absurd ⟨h.1, h.2.1⟩ hc
  · rw [MyoDevice.led]
    split
    · split
      · split
        · intro _
          rfl
        · intro h
          exact absurd h (by simp [isOk_error])
      · intro h
        exact absurd h (by simp [isOk_error])
    · intro h
      exact absurd h (by simp [isOk_error])

/-- Witness for the amended C4 at length-3 in-range lists. -/
theorem C4_witness :
    (MyoDevice.led [1, 2, 3] [4, 5, 6]).isOk = true ∧
    MyoDevice.led [1, 2, 3] [4, 5, 6] = .ok (Command.led [1, 2, 3] [4, 5, 6]) :=
  ⟨by decide, (C4_led_validation [1, 2, 3] [4, 5, 6]).2.2 (by decide)⟩

/-- C5: the subscription policy maps (SEND_FILT, SEND_ALL, ENABLED) to
exactly the handle set {FV_DATA, IMU_DATA, MOTION_EVENT,
CLASSIFIER_EVENT}, maps (NONE, NONE, DISABLED) to the empty set, and for
every stored mode triple the handles subscribed by `start` equal the
handles unsubscribed by `stop`. -/
theorem C5_mode_handle_policy :
    (∀ h : Nat,
      h ∈ MyoClient.startHandles (some .ENABLED) (some .SEND_FILT) (some .SEND_ALL) ↔
      h ∈ [Handle.FV_DATA.val, Handle.IMU_DATA.val, Handle.MOTION_EVENT.val,
           Handle.CLASSIFIER_EVENT.val]) ∧
    MyoClient.startHandles (some .DISABLED) (some .NONE) (some .NONE) = [] ∧
    ∀ (cm : Option ClassifierMode) (em : Option EMGMode) (im : Option IMUMode),
      MyoClient.startHandles cm em im = MyoClient.stopHandles cm em im := by
  refine ⟨?_, by decide, fun cm em im => rfl⟩
  intro h
  have hl : MyoClient.startHandles (some .ENABLED) (some .SEND_FILT) (some .SEND_ALL) =
      [Handle.FV_DATA.val, Handle.IMU_DATA.val, Handle.MOTION_EVENT.val,
       Handle.CLASSIFIER_EVENT.val] := by decide
  rw [hl]

/-- Ingesting only FV samples never emits, from any state with an empty
IMU slot. -/
theorem runOnData_fv_only (fvs : List FVData) (o : Option FVData) :
    (MyoClient.runOnData ⟨o, none⟩ (fvs.map Sum.inl)).2 = List.replicate fvs.length none := by
  induction fvs generalizing o with
  | nil => rfl
  | cons f fs ih =>
      simpa [MyoClient.runOnData, MyoClient.onData, List.replicate] using ih (some f)

/-- Ingesting only IMU samples never emits, from any state with an empty
FV slot. -/
theorem runOnData_imu_only (imus : List IMUData) (o : Option IMUData) :
    (MyoClient.runOnData ⟨none, o⟩ (imus.map Sum.inr)).2 = List.replicate imus.length none := by
  induction imus generalizing o with
  | nil => rfl
  | cons m ms ih =>
      simpa [MyoClient.runOnData, MyoClient.onData, List.replicate] using ih (some m)

/-- C6: from both slots empty, an FV sample then an IMU sample (in either
order) emits exactly one AggregatedData pairing them on the second ingest
and clears both slots; ingesting samples of only one kind never emits; a
second same-kind sample before its pair arrives overwrites the pending one
without emitting. -/
theorem C6_aggregator_pairing :
    (∀ (fv : FVData) (imu : IMUData),
      MyoClient.runOnData ⟨none, none⟩ [Sum.inl fv, Sum.inr imu] =
        (⟨none, none⟩, [none, some ⟨fv, imu⟩])) ∧
    (∀ (fv : FVData) (imu : IMUData),
      MyoClient.runOnData ⟨none, none⟩ [Sum.inr imu, Sum.inl fv] =
        (⟨none, none⟩, [none, some ⟨fv, imu⟩])) ∧
    (∀ fvs : List FVData,
      (MyoClient.runOnData ⟨none, none⟩ (fvs.map Sum.inl)).2 =
        List.replicate fvs.length none) ∧
    (∀ imus : List IMUData,
      (MyoClient.runOnData ⟨none, none⟩ (imus.map Sum.inr)).2 =
        List.replicate imus.length none) ∧
    (∀ (fv1 fv2 : FVData),
      MyoClient.onData ⟨some fv1, none⟩ (Sum.inl fv2) = (⟨some fv2, none⟩, none)) ∧
    (∀ (imu1 imu2 : IMUData),
      MyoClient.onData ⟨none, some imu1⟩ (Sum.inr imu2) = (⟨none, some imu2⟩, none)) :=
  ⟨fun _ _ => rfl, fun _ _ => rfl, fun fvs => runOnData_fv_only fvs none,
   fun imus => runOnData_imu_only imus none, fun _ _ => rfl, fun _ _ => rfl⟩

/-- C7: every fixed-length decoder (EMGData requiring 16 bytes, FVData 17,
IMUData 20, MotionEvent 3, ClassifierEvent 6, FirmwareVersion 8,
FirmwareInfo 20) raises a decode error on a buffer of any other length —
never truncating or padding — and accepts buffers of exactly the required
length (shown on concrete buffers). -/
theorem C7_decode_length_exact (bs : List Nat) :
    (bs.length ≠ 16 → EMGData.decode bs = .error .structError) ∧
    (bs.length ≠ 17 → FVData.decode bs = .error .assertError) ∧
    (bs.length ≠ 20 → IMUData.decode bs = .error .structError) ∧
    (bs.length ≠ 3 → MotionEvent.decode bs = .error .structError) ∧
    (bs.length ≠ 6 → ClassifierEvent.decode bs = .error .structError) ∧
    (bs.length ≠ 8 → FirmwareVersion.decode bs = .error .structError) ∧
    (bs.length ≠ 20 → FirmwareInfo.decode bs = .error .structError) ∧
    (EMGData.decode (List.replicate 16 0)).isOk = true ∧
    (FVData.decode (List.replicate 17 0)).isOk = true ∧
    (IMUData.decode (List.replicate 20 0)).isOk = true ∧
    (MotionEvent.decode [0, 0, 0]).isOk = true ∧
    (ClassifierEvent.decode [1, 1, 1, 0, 0, 0]).isOk = true ∧
    (FirmwareVersion.decode (List.replicate 8 0)).isOk = true ∧
    (FirmwareInfo.decode (List.replicate 20 0)).isOk = true := by
  refine ⟨?_, ?_, ?_, ?_, ?_, ?_, ?_,
    by decide, by decide, by decide, by decide, by decide, by decide, by decide⟩
  · intro h
    by_cases h8 : 8 ≤ bs.length
    · have ht : (bs.take 8).length = 8 := by
        simp [List.length_take]
        omega
      have hd : (bs.drop 8).length ≠ 8 := by
        simp [List.length_drop]
        omega
      simp [EMGData.decode, ht, hd]
      omega
    · have ht : (bs.take 8).length ≠ 8 := by
        simp [List.length_take]
        omega
      simp [EMGData.decode, ht]
      omega
  · intro h
    simp [FVData.decode, h]
  · intro h
    simp [IMUData.decode, h]
  · intro h
    simp [MotionEvent.decode, h]
  · intro h
    simp [ClassifierEvent.decode, h]
  · intro h
    simp [FirmwareVersion.decode, h]
  · intro h
    simp [FirmwareInfo.decode, h]

/-- Witness for C7 at the 1-byte buffer [9]. -/
theorem C7_witness :
    EMGData.decode [9] = .error .structError ∧
    FVData.decode [9] = .error .assertError ∧
    IMUData.decode [9] = .error .structError ∧
    MotionEvent.decode [9] = .error .structError ∧
    ClassifierEvent.decode [9] = .error .structError ∧
    FirmwareVersion.decode [9] = .error .structError ∧
    FirmwareInfo.decode [9] = .error .structError := by
  have h := C7_decode_length_exact [9]
  exact ⟨h.1 (by decide), h.2.1 (by decide), h.2.2.1 (by decide), h.2.2.2.1 (by decide),
    h.2.2.2.2.1 (by decide), h.2.2.2.2.2.1 (by decide), h.2.2.2.2.2.2.1 (by decide)⟩

/-- C9: with aggregate_all set, setup stores and sends the forced mode
triple (DISABLED, SEND_FILT, SEND_DATA) regardless of its arguments; with
aggregate_all unset, the passed arguments are stored and the single
SetMode command of the setup sequence carries exactly those arguments. -/
theorem C9_setup_mode_override (cm : ClassifierMode) (em : EMGMode) (im : IMUMode) :
    (∃ cmds, MyoClient.setupTrace true cm em im =
        .ok (⟨.DISABLED, .SEND_FILT, .SEND_DATA⟩, cmds) ∧
      cmds.filter Command.isSetMode = [.setMode .DISABLED .SEND_FILT .SEND_DATA]) ∧
    (∃ cmds, MyoClient.setupTrace false cm em im = .ok (⟨cm, em, im⟩, cmds) ∧
      cmds.filter Command.isSetMode = [.setMode cm em im]) := by
  exact ⟨⟨_, rfl, rfl⟩, ⟨_, rfl, rfl⟩⟩

/-- C10 as stated is false about the byte the flag comes from: for the
20-byte payload that is zero except byte 10 = 1, to_dict maps unlock_pose
to True (the custom-classifier flag, read from byte 10) although byte 9 of
the payload is 0, so the value is not derived from byte 9. -/
theorem C10_counterexample :
    Except.map (fun fi => fi.toDict.lookup FIKey.unlock_pose)
        (FirmwareInfo.decode [0, 0, 0, 0, 0, 0, 0, 0, 0, 0, 1, 0, 0, 0, 0, 0, 0, 0, 0, 0]) =
      .ok (some (PyVal.b true)) ∧
    [0, 0, 0, 0, 0, 0, 0, 0, 0, 0, 1, 0, 0, 0, 0, 0, 0, 0, 0, 0].getD 9 0 = 0 ∧
    some (PyVal.b true) ≠
      some (PyVal.b
        (([0, 0, 0, 0, 0, 0, 0, 0, 0, 0, 1, 0, 0, 0, 0, 0, 0, 0, 0, 0].getD 9 0 : Nat) != 0)) :=
  ⟨by decide, by decide, by decide⟩

/-- C10 amended: for every 20-byte payload that decodes, to_dict maps
unlock_pose to the same boolean as has_custom_classifier, derived from
byte 10 of the payload (byte 9 is the classifier index), not to the unlock
pose name decoded from the uint16 at bytes 6..7 — which the decoder still
stores internally. -/
theorem C10_unlock_pose_entry (bs : List Nat) (fi : FirmwareInfo)
    (h : FirmwareInfo.decode bs = .ok fi) :
    fi.toDict.lookup FIKey.unlock_pose = some (.b fi.hasCustomClassifier) ∧
    fi.toDict.lookup FIKey.has_custom_classifier = some (.b fi.hasCustomClassifier) ∧
    fi.hasCustomClassifier = (bs.getD 10 0 != 0) ∧
    fi.activeClassifierIndex = bs.getD 9 0 ∧
    ∃ p, Pose.ofNat? (u16at bs 6) = some p ∧ fi.unlockPose = p.pyName := by
  rw [FirmwareInfo.decode] at h
  split at h
  · split at h
    · exact absurd h (by simp)
    · rename_i p hp
      split at h
      · exact absurd h (by simp)
      · rename_i ct hct
        split at h
        · exact absurd h (by simp)
        · rename_i sk hsk
          injection h with h2
          subst h2
          exact ⟨rfl, rfl, rfl, rfl, p, hp, rfl⟩
  · exact absurd h (by simp)

/-- Witness for the amended C10 at the all-zero 20-byte payload. -/
theorem C10_witness :
    fwInfoW.toDict.lookup FIKey.unlock_pose = some (.b fwInfoW.hasCustomClassifier) ∧
    fwInfoW.toDict.lookup FIKey.has_custom_classifier =
      some (.b fwInfoW.hasCustomClassifier) ∧
    fwInfoW.hasCustomClassifier = (fwInfoBytesW.getD 10 0 != 0) ∧
    fwInfoW.activeClassifierIndex = fwInfoBytesW.getD 9 0 ∧
    ∃ p, Pose.ofNat? (u16at fwInfoBytesW 6) = some p ∧ fwInfoW.unlockPose = p.pyName :=
  C10_unlock_pose_entry fwInfoBytesW fwInfoW (by decide)

end Myo
